import Mathlib

/- Verification of src/extensions/raycast-ocr/src/utils/clipboard.ts.

The source file holds two near-identical variants of the module, concatenated
behind a separator: variant 1 is lines 1-103 of the file, variant 2 is
lines 104-218. Definitions suffixed _v1 embed the first variant and
definitions suffixed _v2 embed the second; line numbers in the comments refer
to the concatenated file. JavaScript string primitives (startsWith, endsWith,
includes, trim, toLowerCase) are embedded as structurally recursive functions
on the underlying character lists so that every definition evaluates by kernel
reduction. -/

/-- JavaScript startsWith on character lists: startsList pre l is true when pre
is an initial segment of l. -/
def startsList : List Char → List Char → Bool
  | [], _ => true
  | _ :: _, [] => false
  | p :: ps, c :: cs => p == c && startsList ps cs

/-- JavaScript String.startsWith, via the underlying character lists. -/
def strStarts (s pre : String) : Bool := startsList pre.toList s.toList

/-- JavaScript String.endsWith, via the reversed character lists. -/
def strEnds (s suffix : String) : Bool :=
  startsList suffix.toList.reverse s.toList.reverse

/-- JavaScript String.toLowerCase (ASCII range, which covers every string this
module compares). -/
def lowerStr (s : String) : String := String.mk (s.toList.map Char.toLower)

/-- ASCII whitespace test used by the trim model. -/
def isWhite (c : Char) : Bool :=
  c == ' ' || c == '\t' || c == '\n' || c == '\r' || c == '\x0b' || c == '\x0c'

/-- JavaScript String.trim: drop whitespace from both ends. -/
def jsTrim (s : String) : String :=
  String.mk (((s.toList.dropWhile isWhite).reverse.dropWhile isWhite).reverse)

/-- Occurrence of two consecutive dots in a character list; models the
JavaScript substring test includes("..") from clipboard.ts line 201. -/
def hasDotDot : List Char → Bool
  | c1 :: c2 :: rest => (c1 == '.' && c2 == '.') || hasDotDot (c2 :: rest)
  | _ => false

/-- String form of the ".." occurrence test. -/
def strHasDotDot (s : String) : Bool := hasDotDot s.toList

/-- Split a character list on the '/' separator (segmentation step of Node
path.resolve). -/
def splitSegs : List Char → List (List Char)
  | [] => [[]]
  | c :: rest =>
    match splitSegs rest with
    | [] => [[]]
    | seg :: segs => if c == '/' then [] :: seg :: segs else (c :: seg) :: segs

/-- Normalization step of Node path.resolve: drop empty and "." segments, pop
one segment on "..". -/
def resolveStack (segs : List (List Char)) : List (List Char) :=
  segs.foldl
    (fun acc seg =>
      if seg.isEmpty || seg == ['.'] then acc
      else if seg == ['.', '.'] then acc.dropLast
      else acc ++ [seg])
    []

/-- Rejoin path segments with '/' separators. -/
def joinSegs : List (List Char) → List Char
  | [] => []
  | [seg] => seg
  | seg :: segs => seg ++ '/' :: joinSegs segs

/-- Node path.resolve applied to a single absolute POSIX path, as on
clipboard.ts lines 206-207: a purely lexical normalization of the path text.
It never consults the filesystem, so symbolic links are not resolved. -/
def lexResolve (p : String) : String :=
  String.mk ('/' :: joinSegs (resolveStack (splitSegs p.toList)))

/-- The allow-listed image file extensions (clipboard.ts line 22). -/
def imageExtensions : List String :=
  [".png", ".jpg", ".jpeg", ".gif", ".bmp", ".tiff", ".heic"]

/-- The image check applied to a clipboard file path (clipboard.ts line 23):
the lower-cased path must end with one of the allow-listed extensions. -/
def isImageFile (filePath : String) : Bool :=
  imageExtensions.any (fun ext => strEnds (lowerStr filePath) ext)

/-- Host clipboard content descriptor; only the optional file field matters to
this module. -/
structure ClipboardContent where
  file : Option String

/-- JavaScript truthiness of the optional file field on clipboard.ts line 18:
present and not the empty string. -/
def jsTruthy (s : Option String) : Bool :=
  match s with
  | none => false
  | some s => !(s == "")

/-- Node path.join for a directory and a file name as used in this module (the
arguments need no extra normalization). -/
def pathJoin (dir name : String) : String := dir ++ "/" ++ name

/-- Destination path for the exported clipboard image (clipboard.ts
lines 33 and 136). -/
def tempPngPath (uuid : String) : String :=
  pathJoin "/tmp" ("raycast-ocr-" ++ uuid ++ ".png")

/-- Path of the generated AppleScript file (clipboard.ts lines 36 and 139). -/
def scriptPathOf (uuid : String) : String :=
  pathJoin "/tmp" ("ocr-script-" ++ uuid ++ ".applescript")

/-- Deletion gate of variant 1 cleanupTempFile (clipboard.ts line 93): the
path must start with the /tmp/raycast-ocr sentinel. -/
def cleanupGate_v1 (filePath : String) : Bool :=
  strStarts filePath "/tmp/raycast-ocr"

/-- Variant 1 cleanupTempFile (clipboard.ts lines 91-103), acting on the set
of existing files: return without deleting when the gate rejects, otherwise
unlink the file (unlink errors are caught and only logged, so the effect is at
most removal of the entry). -/
def cleanupTempFile_v1 (filePath : String) (fs : List String) : List String :=
  if cleanupGate_v1 filePath then fs.erase filePath else fs

/-- Deletion gate of variant 2 cleanupTempFile (clipboard.ts lines 200-210):
the path must start with /tmp/, must not contain "..", and its lexical
resolution must still start with the resolved temp root. -/
def cleanupGate_v2 (filePath : String) : Bool :=
  if !strStarts filePath "/tmp/" || strHasDotDot filePath then false
  else strStarts (lexResolve filePath) (lexResolve "/tmp/")

/-- Variant 2 cleanupTempFile (clipboard.ts lines 197-218), acting on the set
of existing files. -/
def cleanupTempFile_v2 (filePath : String) (fs : List String) : List String :=
  if cleanupGate_v2 filePath then fs.erase filePath else fs

/-- Effect of a successful writeFile on the set of existing files. -/
def insertFile (p : String) (fs : List String) : List String :=
  if p ∈ fs then fs else p :: fs

/-- Outcome oracle for the external effects of the byte-export attempt:
whether the script write succeeds, and the osascript invocation result (some
stdout when the process resolves, none when it rejects). -/
structure ExportWorld where
  writeOk : Bool
  execOut : Option String

/-- The try-block of the variant 1 byte export (clipboard.ts lines 32-67),
acting on the set of existing files; a writeFile or osascript failure
surfaces as an Except.error, to be caught by the outer catch. On the two
stdout branches cleanupTempFile runs twice (lines 54 or 58, then the finally
block at line 63); on the osascript-failure branch only the finally block
runs; a writeFile failure happens before the inner try, so no cleanup runs. -/
def byteExportTry_v1 (tempUuid scriptUuid : String) (w : ExportWorld)
    (fs : List String) : Except String (Option String) × List String :=
  let scriptPath := scriptPathOf scriptUuid
  if !w.writeOk then (Except.error "writeFile failed", fs)
  else
    let fs1 := insertFile scriptPath fs
    match w.execOut with
    | none => (Except.error "osascript failed", cleanupTempFile_v1 scriptPath fs1)
    | some stdout =>
      if jsTrim stdout == "success" then
        (Except.ok (some (tempPngPath tempUuid)),
          cleanupTempFile_v1 scriptPath (cleanupTempFile_v1 scriptPath fs1))
      else
        (Except.ok none,
          cleanupTempFile_v1 scriptPath (cleanupTempFile_v1 scriptPath fs1))

/-- The try-block of the variant 2 byte export (clipboard.ts lines 135-173);
identical control flow, with the variant 2 cleanup. -/
def byteExportTry_v2 (tempUuid scriptUuid : String) (w : ExportWorld)
    (fs : List String) : Except String (Option String) × List String :=
  let scriptPath := scriptPathOf scriptUuid
  if !w.writeOk then (Except.error "writeFile failed", fs)
  else
    let fs1 := insertFile scriptPath fs
    match w.execOut with
    | none => (Except.error "osascript failed", cleanupTempFile_v2 scriptPath fs1)
    | some stdout =>
      if jsTrim stdout == "success" then
        (Except.ok (some (tempPngPath tempUuid)),
          cleanupTempFile_v2 scriptPath (cleanupTempFile_v2 scriptPath fs1))
      else
        (Except.ok none,
          cleanupTempFile_v2 scriptPath (cleanupTempFile_v2 scriptPath fs1))

/-- Which branch of getClipboardImagePath a run took. -/
inductive Branch
  | readFailed
  | filePath
  | byteExport
deriving DecidableEq

/-- Observable outcome of a getClipboardImagePath run: the returned value (or
the propagated error), the final set of existing files, and the branch
taken. -/
structure RunOut where
  result : Except String (Option String)
  fs : List String
  branch : Branch

/-- Variant 1 getClipboardImagePath (clipboard.ts lines 14-72): read the
clipboard (a read failure propagates, line 15 is before the try), return a
truthy file path with an allow-listed extension directly (lines 18-28),
otherwise run the byte-export attempt whose outer catch converts any error to
a null result (lines 32-71). -/
def getClipboardImagePath_v1 (read : Except String ClipboardContent)
    (tempUuid scriptUuid : String) (w : ExportWorld) (fs : List String) :
    RunOut :=
  match read with
  | Except.error e => ⟨Except.error e, fs, Branch.readFailed⟩
  | Except.ok clipboardContent =>
    if jsTruthy clipboardContent.file
        && isImageFile (clipboardContent.file.getD "") then
      ⟨Except.ok (some (clipboardContent.file.getD "")), fs, Branch.filePath⟩
    else
      match byteExportTry_v1 tempUuid scriptUuid w fs with
      | (Except.error _, fs2) => ⟨Except.ok none, fs2, Branch.byteExport⟩
      | (Except.ok v, fs2) => ⟨Except.ok v, fs2, Branch.byteExport⟩

/-- Variant 2 getClipboardImagePath (clipboard.ts lines 117-178); identical
control flow, with the variant 2 byte export. -/
def getClipboardImagePath_v2 (read : Except String ClipboardContent)
    (tempUuid scriptUuid : String) (w : ExportWorld) (fs : List String) :
    RunOut :=
  match read with
  | Except.error e => ⟨Except.error e, fs, Branch.readFailed⟩
  | Except.ok clipboardContent =>
    if jsTruthy clipboardContent.file
        && isImageFile (clipboardContent.file.getD "") then
      ⟨Except.ok (some (clipboardContent.file.getD "")), fs, Branch.filePath⟩
    else
      match byteExportTry_v2 tempUuid scriptUuid w fs with
      | (Except.error _, fs2) => ⟨Except.ok none, fs2, Branch.byteExport⟩
      | (Except.ok v, fs2) => ⟨Except.ok v, fs2, Branch.byteExport⟩

/-- Variant 1 script text (clipboard.ts lines 37-46): the destination path is
interpolated into the script as a quoted POSIX file literal. -/
def buildScript_v1 (tempPath : String) : String :=
  "set theFile to POSIX file \"" ++ tempPath ++ "\"\ntry\n  set imageData to the clipboard as «class PNGf»\n  set fileRef to open for access theFile with write permission\n  write imageData to fileRef\n  close access fileRef\n  return \"success\"\non error\n  return \"no_image\"\nend try"

/-- Variant 2 script text (clipboard.ts lines 140-150): a constant string that
reads the destination from the OCR_OUTPUT_PATH system attribute and never
mentions the destination path. -/
def script_v2 : String :=
  "set outputFile to (system attribute \"OCR_OUTPUT_PATH\")\nset theFile to POSIX file outputFile\ntry\n  set imageData to the clipboard as «class PNGf»\n  set fileRef to open for access theFile with write permission\n  write imageData to fileRef\n  close access fileRef\n  return \"success\"\non error\n  return \"no_image\"\nend try"

/-- The script text variant 2 writes for a given destination path: the
parameter records the run's destination, which the constant script body does
not use. -/
def buildScript_v2 (tempPath : String) : String := script_v2

/-- First-match lookup in an environment association list. -/
def envLookup (env : List (String × String)) (k : String) : Option String :=
  match env.find? (fun kv => kv.fst == k) with
  | some kv => some kv.snd
  | none => none

/-- Environment of the variant 2 osascript invocation (clipboard.ts
line 156): the process environment extended with OCR_OUTPUT_PATH bound to the
destination path; the added binding wins on lookup, matching the JavaScript
spread where the explicit key overrides the base object. -/
def execEnv_v2 (baseEnv : List (String × String)) (tempPath : String) :
    List (String × String) :=
  ("OCR_OUTPUT_PATH", tempPath) :: baseEnv

/-- A filesystem entry for the canonicalization model: a regular file or a
symbolic link. -/
inductive FsEntry
  | file
  | symlink (target : String)

/-- Modelled filesystem semantics for canonicalization (the OS-level notion
the spec appeals to, external to the repository): the canonical
symlink-resolved absolute form of a path. If the path names a symbolic link
the canonical form is the resolved link target, otherwise the lexically
resolved path; one resolution step suffices for the inputs considered. -/
def canonicalForm (entries : List (String × FsEntry)) (p : String) : String :=
  match entries.find? (fun ent => ent.fst == p) with
  | some (_, FsEntry.symlink target) => lexResolve target
  | _ => lexResolve p

/-- Process-level outcome of the interactive screenshot utility. -/
inductive CaptureOutcome
  | completed
  | cancelled
  | launchFailed (msg : String)

/-- Modelled from the spec: the process-level behavior of the external
screencapture utility, which is not part of this repository. Per the spec,
user cancellation ends the capture without an error (the file is simply not
created); only a launch failure rejects the invocation. -/
def screencaptureResult : CaptureOutcome → Except String Unit
  | CaptureOutcome.completed => Except.ok ()
  | CaptureOutcome.cancelled => Except.ok ()
  | CaptureOutcome.launchFailed msg => Except.error msg

/-- takeScreenshot (clipboard.ts lines 78-85 and 184-191, identical in both
variants): build the destination path, await the capture utility, and return
the path unconditionally. The function never reads the filesystem, so the
unused fs parameter records that no existence check occurs. -/
def takeScreenshot (uuid : String) (o : CaptureOutcome) (fs : List String) :
    Except String String :=
  match screencaptureResult o with
  | Except.error e => Except.error e
  | Except.ok _ =>
    Except.ok (pathJoin "/tmp" ("raycast-ocr-screenshot-" ++ uuid ++ ".png"))

/-- Claim C10: a clipboard read failure propagates unchanged to the caller of
either variant of getClipboardImagePath instead of being converted to a null
result: the read happens before the try/catch guarding the byte export. -/
theorem c10_read_error_propagates (e : String) (u1 u2 : String)
    (w : ExportWorld) (fs : List String) :
    getClipboardImagePath_v1 (Except.error e) u1 u2 w fs
        = ⟨Except.error e, fs, Branch.readFailed⟩
    ∧ getClipboardImagePath_v2 (Except.error e) u1 u2 w fs
        = ⟨Except.error e, fs, Branch.readFailed⟩ :=
  ⟨rfl, rfl⟩

/-- Claim C2: a path that does not start with the variant's fixed temp-prefix
gate makes cleanupTempFile a no-op, in both variants (variant 1 gates on
/tmp/raycast-ocr, variant 2 on /tmp/): the set of existing files is
unchanged. -/
theorem c2_non_sentinel_noop :
    (∀ (p : String) (fs : List String),
      strStarts p "/tmp/raycast-ocr" = false → cleanupTempFile_v1 p fs = fs)
    ∧ (∀ (p : String) (fs : List String),
      strStarts p "/tmp/" = false → cleanupTempFile_v2 p fs = fs) := by
  constructor
  · intro p fs h
    simp [cleanupTempFile_v1, cleanupGate_v1, h]
  · intro p fs h
    simp [cleanupTempFile_v2, cleanupGate_v2, h]

/-- Witness for claim C2 at concrete inputs outside each gate. -/
theorem c2_non_sentinel_noop_witness :
    cleanupTempFile_v1 "/etc/passwd" ["/etc/passwd"] = ["/etc/passwd"]
    ∧ cleanupTempFile_v2 "/var/raycast-ocr-x.png" ["/var/raycast-ocr-x.png"]
        = ["/var/raycast-ocr-x.png"] :=
  ⟨c2_non_sentinel_noop.1 "/etc/passwd" ["/etc/passwd"] (by decide),
   c2_non_sentinel_noop.2 "/var/raycast-ocr-x.png" ["/var/raycast-ocr-x.png"]
     (by decide)⟩

/-- Claim C1 is violated by variant 1: in a run reaching the byte-export
attempt, the generated script path /tmp/ocr-script-(uuid).applescript does not
carry the /tmp/raycast-ocr sentinel required by variant 1 cleanupTempFile, so
every cleanup call is a no-op and the script file is still on disk when the
function returns, on the success branch and on the failure branch alike;
variant 2, whose gate is /tmp/, does delete it on both branches. -/
theorem c1_script_file_left_behind :
    (getClipboardImagePath_v1 (Except.ok ⟨none⟩) "a" "b"
        ⟨true, some "success"⟩ []).fs = [scriptPathOf "b"]
    ∧ (getClipboardImagePath_v1 (Except.ok ⟨none⟩) "a" "b"
        ⟨true, some "no_image"⟩ []).fs = [scriptPathOf "b"]
    ∧ cleanupGate_v1 (scriptPathOf "b") = false
    ∧ (getClipboardImagePath_v2 (Except.ok ⟨none⟩) "a" "b"
        ⟨true, some "success"⟩ []).fs = []
    ∧ (getClipboardImagePath_v2 (Except.ok ⟨none⟩) "a" "b"
        ⟨true, some "no_image"⟩ []).fs = [] :=
  ⟨rfl, rfl, rfl, rfl, rfl⟩

/-- Counterexample to claim C3 as stated: in variant 1 the generated script
text is not independent of the destination path; two destination paths yield
different script bodies, because the path is interpolated into the script as a
quoted literal. -/
theorem c3_script_text_depends_on_path :
    buildScript_v1 "/tmp/raycast-ocr-a.png"
      ≠ buildScript_v1 "/tmp/raycast-ocr-b.png" := by
  decide

/-- Claim C3 as amended: in variant 2 the script body is the identical string
for any two destination paths and the destination reaches the interpreter
out-of-band through the OCR_OUTPUT_PATH binding of the execution environment;
in variant 1 the destination path is interpolated into the script text, so the
script body varies with the destination. -/
theorem c3_env_variant_amended (p q : String)
    (baseEnv : List (String × String)) :
    buildScript_v2 p = buildScript_v2 q
    ∧ envLookup (execEnv_v2 baseEnv p) "OCR_OUTPUT_PATH" = some p
    ∧ ∃ p1 p2, buildScript_v1 p1 ≠ buildScript_v1 p2 :=
  ⟨rfl, rfl, "/tmp/raycast-ocr-a.png", "/tmp/raycast-ocr-b.png", by decide⟩

/-- Claim C4 is violated by the code: the variant 2 check uses Node
path.resolve, a purely lexical normalization that never consults the
filesystem, so a symbolic link under /tmp whose canonical (symlink-resolved)
form is /etc/passwd still passes both checks and unlink is invoked, removing
the link entry, where the claim requires a no-op that deletes nothing. -/
theorem c4_lexical_resolve_misses_symlink :
    canonicalForm [("/tmp/raycast-ocr-link", FsEntry.symlink "/etc/passwd")]
        "/tmp/raycast-ocr-link" = "/etc/passwd"
    ∧ strStarts "/etc/passwd" "/tmp" = false
    ∧ cleanupGate_v2 "/tmp/raycast-ocr-link" = true
    ∧ cleanupTempFile_v2 "/tmp/raycast-ocr-link" ["/tmp/raycast-ocr-link"]
        = [] :=
  ⟨rfl, rfl, rfl, rfl⟩

/-- Claim C5 is violated by variant 1, which has no traversal check: the path
/tmp/raycast-ocr-x/../../etc/passwd passes the /tmp/raycast-ocr gate and
unlink is invoked on it, although it lexically resolves to /etc/passwd outside
the temp root; variant 2 rejects the same path through its ".." test and is a
no-op, as the claim states. -/
theorem c5_traversal_deleted_by_v1 :
    cleanupGate_v1 "/tmp/raycast-ocr-x/../../etc/passwd" = true
    ∧ lexResolve "/tmp/raycast-ocr-x/../../etc/passwd" = "/etc/passwd"
    ∧ strStarts (lexResolve "/tmp/raycast-ocr-x/../../etc/passwd") "/tmp"
        = false
    ∧ cleanupTempFile_v1 "/tmp/raycast-ocr-x/../../etc/passwd"
        ["/tmp/raycast-ocr-x/../../etc/passwd"] = []
    ∧ cleanupTempFile_v2 "/tmp/raycast-ocr-x/../../etc/passwd"
        ["/tmp/raycast-ocr-x/../../etc/passwd"]
        = ["/tmp/raycast-ocr-x/../../etc/passwd"] :=
  ⟨rfl, rfl, rfl, rfl, rfl⟩

/-- Claim C6: when the clipboard descriptor carries a truthy file path, both
variants of getClipboardImagePath return exactly that path, with the file set
unchanged (no copy), when its extension case-insensitively matches the
allow-list; otherwise the run falls through to the byte-export branch rather
than returning the path. -/
theorem c6_extension_allowlist (c : ClipboardContent) (p u1 u2 : String)
    (w : ExportWorld) (fs : List String)
    (hf : c.file = some p) (hne : p ≠ "") :
    (isImageFile p = true →
      getClipboardImagePath_v1 (Except.ok c) u1 u2 w fs
          = ⟨Except.ok (some p), fs, Branch.filePath⟩
      ∧ getClipboardImagePath_v2 (Except.ok c) u1 u2 w fs
          = ⟨Except.ok (some p), fs, Branch.filePath⟩)
    ∧ (isImageFile p = false →
      (getClipboardImagePath_v1 (Except.ok c) u1 u2 w fs).branch
          = Branch.byteExport
      ∧ (getClipboardImagePath_v2 (Except.ok c) u1 u2 w fs).branch
          = Branch.byteExport) := by
  have hpb : (p == "") = false := by simp [hne]
  constructor
  · intro himg
    constructor <;>
      simp [getClipboardImagePath_v1, getClipboardImagePath_v2, hf, jsTruthy,
        hpb, himg]
  · intro himg
    refine ⟨?_, ?_⟩
    · rcases h2 : byteExportTry_v1 u1 u2 w fs with ⟨r, fs2⟩
      cases r <;>
        simp [getClipboardImagePath_v1, hf, jsTruthy, hpb, himg, h2]
    · rcases h2 : byteExportTry_v2 u1 u2 w fs with ⟨r, fs2⟩
      cases r <;>
        simp [getClipboardImagePath_v2, hf, jsTruthy, hpb, himg, h2]

/-- Witness for claim C6 at a concrete descriptor with an upper-case
allow-listed extension. -/
theorem c6_extension_allowlist_witness :
    getClipboardImagePath_v1 (Except.ok ⟨some "/a.PNG"⟩) "a" "b"
        ⟨true, some "x"⟩ []
      = ⟨Except.ok (some "/a.PNG"), [], Branch.filePath⟩ :=
  ((c6_extension_allowlist ⟨some "/a.PNG"⟩ "/a.PNG" "a" "b" ⟨true, some "x"⟩
      [] rfl (by decide)).1 (by decide)).1

/-- Claim C7: in the byte-export path (descriptor check false, script written,
interpreter resolved with some stdout), both variants return the generated
destination path exactly when the trimmed stdout equals the literal
"success", and return null for any other reported status. -/
theorem c7_success_literal (c : ClipboardContent) (u1 u2 s : String)
    (fs : List String)
    (hnf : (jsTruthy c.file && isImageFile (c.file.getD "")) = false) :
    (jsTrim s = "success" →
      (getClipboardImagePath_v1 (Except.ok c) u1 u2 ⟨true, some s⟩ fs).result
          = Except.ok (some (tempPngPath u1))
      ∧ (getClipboardImagePath_v2 (Except.ok c) u1 u2 ⟨true, some s⟩ fs).result
          = Except.ok (some (tempPngPath u1)))
    ∧ (jsTrim s ≠ "success" →
      (getClipboardImagePath_v1 (Except.ok c) u1 u2 ⟨true, some s⟩ fs).result
          = Except.ok none
      ∧ (getClipboardImagePath_v2 (Except.ok c) u1 u2 ⟨true, some s⟩ fs).result
          = Except.ok none) := by
  constructor
  · intro hs
    have hb : (jsTrim s == "success") = true := by simp [hs]
    constructor <;>
      simp [getClipboardImagePath_v1, getClipboardImagePath_v2,
        byteExportTry_v1, byteExportTry_v2, hnf, hb]
  · intro hs
    have hb : (jsTrim s == "success") = false := by simp [hs]
    constructor <;>
      simp [getClipboardImagePath_v1, getClipboardImagePath_v2,
        byteExportTry_v1, byteExportTry_v2, hnf, hb]

/-- Witness for claim C7 at a concrete run whose stdout trims to the success
literal. -/
theorem c7_success_literal_witness :
    (getClipboardImagePath_v1 (Except.ok ⟨none⟩) "a" "b"
        ⟨true, some " success "⟩ []).result
      = Except.ok (some (tempPngPath "a")) :=
  ((c7_success_literal ⟨none⟩ "a" "b" " success " [] (by decide)).1
    (by decide)).1

/-- Claim C8: when the descriptor check fails and the byte-export sequence
fails (the script write fails, or the interpreter invocation rejects), the
inner try-block of either variant surfaces an error, and the outer catch of
getClipboardImagePath converts it to a null result, so no error from the
sequence propagates to the caller. -/
theorem c8_export_failures_caught (c : ClipboardContent) (u1 u2 : String)
    (w : ExportWorld) (fs : List String)
    (hnf : (jsTruthy c.file && isImageFile (c.file.getD "")) = false)
    (hfail : w.writeOk = false ∨ w.execOut = none) :
    (∃ e, (byteExportTry_v1 u1 u2 w fs).fst = Except.error e)
    ∧ (∃ e, (byteExportTry_v2 u1 u2 w fs).fst = Except.error e)
    ∧ (getClipboardImagePath_v1 (Except.ok c) u1 u2 w fs).result
        = Except.ok none
    ∧ (getClipboardImagePath_v2 (Except.ok c) u1 u2 w fs).result
        = Except.ok none := by
  rcases hfail with h | h
  · refine ⟨⟨"writeFile failed", ?_⟩, ⟨"writeFile failed", ?_⟩, ?_, ?_⟩ <;>
      simp [byteExportTry_v1, byteExportTry_v2, getClipboardImagePath_v1,
        getClipboardImagePath_v2, hnf, h]
  · cases hw : w.writeOk
    · refine ⟨⟨"writeFile failed", ?_⟩, ⟨"writeFile failed", ?_⟩, ?_, ?_⟩ <;>
        simp [byteExportTry_v1, byteExportTry_v2, getClipboardImagePath_v1,
          getClipboardImagePath_v2, hnf, h, hw]
    · refine ⟨⟨"osascript failed", ?_⟩, ⟨"osascript failed", ?_⟩, ?_, ?_⟩ <;>
        simp [byteExportTry_v1, byteExportTry_v2, getClipboardImagePath_v1,
          getClipboardImagePath_v2, hnf, h, hw]

/-- Witness for claim C8 at a concrete run whose script write fails. -/
theorem c8_export_failures_caught_witness :
    (getClipboardImagePath_v1 (Except.ok ⟨none⟩) "a" "b" ⟨false, none⟩
        []).result = Except.ok none :=
  (c8_export_failures_caught ⟨none⟩ "a" "b" ⟨false, none⟩ [] (by decide)
    (Or.inl rfl)).2.2.1

/-- Claim C9: whenever the capture utility completes or the user cancels (the
cancellation semantics of the external utility are modelled from the spec),
takeScreenshot returns exactly the path built from the /tmp/raycast-ocr-
sentinel, the screenshot marker, the generated identifier and the .png
extension; and its result never depends on the set of existing files, so no
existence check is performed. -/
theorem c9_screenshot_path_form (u : String) (o : CaptureOutcome)
    (fs : List String)
    (h : o = CaptureOutcome.completed ∨ o = CaptureOutcome.cancelled) :
    takeScreenshot u o fs
        = Except.ok (pathJoin "/tmp" ("raycast-ocr-screenshot-" ++ u ++ ".png"))
    ∧ ∀ fs', takeScreenshot u o fs = takeScreenshot u o fs' := by
  rcases h with h | h <;> subst h <;> exact ⟨rfl, fun _ => rfl⟩

/-- Witness for claim C9 at a concrete cancelled capture. -/
theorem c9_screenshot_path_form_witness :
    takeScreenshot "u" CaptureOutcome.cancelled []
      = Except.ok "/tmp/raycast-ocr-screenshot-u.png" :=
  (c9_screenshot_path_form "u" CaptureOutcome.cancelled [] (Or.inr rfl)).1
